import Mathlib

/-!
# SolarScan — verification of the analysis pipeline specification

Shallow embedding of the SolarScan repository
(frontend home page `frontend/src/app/page.tsx`, the documented HTTP API of
the backend, and the analysis-pipeline design) together with proofs of the
specification claims.

The repository ships the home page and its documentation; the backend
pipeline components (Geocoder, Climate Resolver, Yield Predictor, Economics
Engine, Analysis Orchestrator) are described by the specification and the
repository README but their Python sources are not part of the repository
snapshot, so those components are modelled from the specification text and
each such definition is marked `Modelled from the spec:`.
-/

namespace SolarScan

/-! ## Frontend home page (`frontend/src/app/page.tsx`)

`handleSubmit` validates the address field, POSTs
`{address, building_type: "house"}` to `/api/v1/analysis`, and on an `ok`
response navigates to `/analysis/{request_id}`; errors show an alert, and a
`finally` block resets the `loading` flag.  The embedding makes the effects
explicit: the outcome records whether a fetch was issued, the JSON body that
was sent, the route pushed (if any), whether an alert fired, and the trace
of values assigned to the `loading` state in order. -/

/-- Embedding of JavaScript `String.prototype.trim` (used by the guard
`!address.trim()` in page.tsx line 15): drop leading and trailing
whitespace.  Written structurally on the character list so that it
evaluates inside the kernel. -/
def jsTrim (s : String) : String :=
  ⟨((s.data.dropWhile Char.isWhitespace).reverse.dropWhile
      Char.isWhitespace).reverse⟩

/-- The JSON body that `handleSubmit` sends to `POST /api/v1/analysis`
(page.tsx lines 28–31). -/
structure AnalysisRequestBody where
  address : String
  building_type : String
deriving DecidableEq, Repr

/-- Environment of one run of `handleSubmit`: what the `fetch` call would do.
`reject` models a network-level rejection (fetch throws); `response ok rid`
models an HTTP response with the given `ok` flag and `request_id` field of
its JSON payload. -/
inductive FetchOutcome where
  | reject
  | response (ok : Bool) (request_id : String)
deriving DecidableEq, Repr

/-- Observable effects of one run of `handleSubmit` (page.tsx lines 12–46). -/
structure HandlerRun where
  /-- whether a network request to the analysis endpoint was issued -/
  fetched : Bool
  /-- the JSON body sent, when a request was issued -/
  sentBody : Option AnalysisRequestBody
  /-- the route passed to `router.push`, when navigation happened -/
  pushedRoute : Option String
  /-- whether an alert was shown -/
  alerted : Bool
  /-- values assigned to the `loading` state flag, in order -/
  loadingTrace : List Bool
deriving DecidableEq, Repr

/-- Final value of the `loading` flag after a run (it starts `false`,
page.tsx line 9). -/
def HandlerRun.loadingFinal (r : HandlerRun) : Bool :=
  r.loadingTrace.getLastD false

/-- Embedding of `handleSubmit` (page.tsx lines 12–46).  The guard
`!address.trim()` is true exactly when the trimmed address is the empty
string, and then the handler returns after an alert without touching
`loading` or the network.  Otherwise `setLoading(true)` runs, the body
`{address, building_type: "house"}` is sent, a non-`ok` response throws into
the `catch` branch, and the `finally` block appends `setLoading(false)` in
every path. -/
def handleSubmit (address : String) (fetch : FetchOutcome) : HandlerRun :=
  if jsTrim address = "" then
    { fetched := false, sentBody := none, pushedRoute := none
      alerted := true, loadingTrace := [] }
  else
    let body : AnalysisRequestBody := { address := address, building_type := "house" }
    match fetch with
    | .reject =>
        { fetched := true, sentBody := some body, pushedRoute := none
          alerted := true, loadingTrace := [true, false] }
    | .response ok rid =>
        if ok then
          { fetched := true, sentBody := some body
            pushedRoute := some ("/analysis/" ++ rid)
            alerted := false, loadingTrace := [true, false] }
        else
          { fetched := true, sentBody := some body, pushedRoute := none
            alerted := true, loadingTrace := [true, false] }

/-! ## Documented response of `POST /api/v1/analysis`

The repository README (`src/unnamed/part_000`, lines 250–258) documents the
response of the submission endpoint with a concrete example record. -/

/-- Shape of the documented response of `POST /api/v1/analysis`. -/
structure SubmitResponse where
  request_id : String
  status : String
  message : String
  estimated_time : Nat
deriving DecidableEq, Repr

/-- The response example documented in the README for
`POST /api/v1/analysis` (`src/unnamed/part_000` lines 252–257), verbatim. -/
def submitResponseExample : SubmitResponse :=
  { request_id := "550e8400-e29b-41d4-a716-446655440000"
    status := "processing"
    message := "분석이 시작되었습니다."
    estimated_time := 30 }

/-! ## Climate Resolver and climate data (spec §3, §4.3)

The backend sources are not in the repository snapshot; the components below
are modelled from the specification. -/

/-- Modelled from the spec: a `ClimateSeries` (spec §3) — the backend data
model source is missing from the repository.  "Ordered sequence of 12
monthly average irradiance values (kWh/m²/day) for a region, plus the
region tag." -/
structure ClimateSeries where
  region : String
  values : List ℚ
deriving DecidableEq, Repr

/-- The `ClimateSeries` invariant of spec §3: exactly 12 entries, values ≥ 0. -/
def ClimateSeries.wf (cs : ClimateSeries) : Prop :=
  cs.values.length = 12 ∧ ∀ v ∈ cs.values, 0 ≤ v

instance (cs : ClimateSeries) : Decidable cs.wf := by
  unfold ClimateSeries.wf; infer_instance

/-- Fatal pipeline error reasons (spec §4.7, §7). -/
inductive FatalReason where
  | unresolvableAddress
  | noClimateData
  | internalFault
  | timeout
deriving DecidableEq, Repr

/-- Modelled from the spec: the Climate Resolver (spec §4.3) — its backend
source is missing from the repository.  Given the climate data store
(region tag → series, or a coverage miss) and a region, it returns the
applicable series, failing with `NoClimateData` when the region is outside
the supported coverage area; a series violating the §3 invariant is an
internal defect, not usable data. -/
def resolveClimate (store : String → Option ClimateSeries) (region : String) :
    Except FatalReason ClimateSeries :=
  match store region with
  | none => .error .noClimateData
  | some cs => if cs.wf then .ok cs else .error .internalFault

/-! ## Yield Predictor (spec §4.4)

Recommended capacity is bounded by usable area (area × a fixed
panel-density constant, capped by a maximum-capacity policy), and the
generation of month *m* is capacity × the month's irradiance × the
orientation derating factor × the slope derating factor (derating factors
are fixed multipliers ≤ the true-south / optimum-slope optimum). -/

/-- Modelled from the spec: a `RoofProfile` (spec §3) — the backend data
model source is missing from the repository.  The orientation and slope are
consumed by the Yield Predictor only through their fixed derating
multipliers, so the embedding carries those factors directly. -/
structure RoofProfile where
  total_area : ℚ
  usable_area : ℚ
  /-- derating multiplier of the dominant orientation sector
  (1 at the true-south optimum) -/
  orientationFactor : ℚ
  /-- derating multiplier of the slope angle
  (1 at the regional-optimum slope) -/
  slopeFactor : ℚ
deriving DecidableEq, Repr

/-- Modelled from the spec: a `YieldEstimate` (spec §3) — the backend data
model source is missing from the repository. -/
structure YieldEstimate where
  recommended_capacity : ℚ
  monthly_generation : List ℚ
  annual_generation : ℚ
deriving DecidableEq, Repr

/-- Modelled from the spec: recommended capacity of the Yield Predictor
(spec §4.4) — "bounded by usable area (area × a fixed panel-density
constant, capped by a maximum-capacity policy per building type)". -/
def recommendedCapacity (panelDensity maxCapacity usableArea : ℚ) : ℚ :=
  min (usableArea * panelDensity) maxCapacity

/-- Modelled from the spec: generation of one month (spec §4.4) — "a
function of capacity, the month's irradiance, orientation derating factor,
and slope derating factor". -/
def monthGeneration (capacity orientF slopeF irradiance : ℚ) : ℚ :=
  capacity * irradiance * orientF * slopeF

/-- Modelled from the spec: the Yield Predictor (spec §4.4) — its backend
source is missing from the repository.  Annual generation is the sum of the
12 monthly values (spec §3: annual = Σ monthly). -/
def predictYield (panelDensity maxCapacity : ℚ) (roof : RoofProfile)
    (cs : ClimateSeries) : YieldEstimate :=
  let capacity := recommendedCapacity panelDensity maxCapacity roof.usable_area
  let monthly := cs.values.map
    (monthGeneration capacity roof.orientationFactor roof.slopeFactor)
  { recommended_capacity := capacity
    monthly_generation := monthly
    annual_generation := monthly.sum }

/-! ## Economics Engine (spec §4.5) -/

/-- Modelled from the spec: the rate table consumed by the Economics Engine
(spec §4.5, §6) — its backend source is missing from the repository. -/
structure RateTable where
  costPerKW : ℚ
  subsidyRate : ℚ
  subsidyCap : ℚ
  tariff : ℚ
deriving DecidableEq, Repr

/-- Well-formedness of a rate table: non-negative prices and caps, and a
subsidy rate that is a fraction of the installation cost (spec §7 treats a
malformed rate table as an internal defect). -/
def RateTable.wf (rt : RateTable) : Prop :=
  0 ≤ rt.costPerKW ∧ 0 ≤ rt.subsidyRate ∧ rt.subsidyRate ≤ 1 ∧
    0 ≤ rt.subsidyCap ∧ 0 ≤ rt.tariff

instance (rt : RateTable) : Decidable rt.wf := by
  unfold RateTable.wf; infer_instance

/-- Modelled from the spec: an `EconomicProfile` (spec §3) — the backend
data model source is missing from the repository.  `payback_period = none`
is the "not recoverable" report (spec §4.5: payback reported as "not
recoverable" rather than a numeric value when annual savings ≤ 0). -/
structure EconomicProfile where
  installation_cost : ℚ
  subsidy_amount : ℚ
  net_cost : ℚ
  annual_savings : ℚ
  payback_period : Option ℚ
deriving DecidableEq, Repr

/-- Modelled from the spec: the Economics Engine (spec §4.5) — its backend
source is missing from the repository.  installation cost = capacity ×
cost-per-kW; subsidy = min(installation cost × subsidy-rate, subsidy-cap);
net cost = installation − subsidy; annual savings = annual generation ×
tariff; payback = net cost / annual savings when annual savings > 0, else
"not recoverable". -/
def economicAnalysis (rt : RateTable) (capacity annualGeneration : ℚ) :
    EconomicProfile :=
  let installation := capacity * rt.costPerKW
  let subsidy := min (installation * rt.subsidyRate) rt.subsidyCap
  let net := installation - subsidy
  let savings := annualGeneration * rt.tariff
  { installation_cost := installation
    subsidy_amount := subsidy
    net_cost := net
    annual_savings := savings
    payback_period := if 0 < savings then some (net / savings) else none }

/-! ## Geocoder, Roof Estimator, Environmental Engine and result assembly
(spec §4.1, §4.2, §4.6) -/

/-- Modelled from the spec: a `Location` (spec §3) — the backend data model
source is missing from the repository. -/
structure Location where
  address : String
  latitude : ℚ
  longitude : ℚ
  region : String
deriving DecidableEq, Repr

/-- Modelled from the spec: outcome of the Geocoder (spec §4.1) — its
backend source is missing from the repository.  `noMatch` is the
`UnresolvableAddress` failure; `ambiguous best rest` is the recoverable
`AmbiguousAddress` outcome carrying the best candidate and the remaining
top-N candidates; `resolved` is a unique high-confidence match. -/
inductive GeoOutcome where
  | noMatch
  | ambiguous (best : Location) (rest : List Location)
  | resolved (loc : Location)
deriving DecidableEq, Repr

/-- The region tag the pipeline will use for a geocoding outcome, when the
outcome is not a fatal `UnresolvableAddress`. -/
def GeoOutcome.region : GeoOutcome → Option String
  | .noMatch => none
  | .ambiguous best _ => some best.region
  | .resolved loc => some loc.region

/-- Reduced-confidence annotations on a completed result (spec §4.7, §7:
recoverable degradations "annotate the eventual result with
reduced-confidence flags"). -/
structure ConfidenceFlags where
  ambiguousAddress : Bool
  roofFallback : Bool
  staleClimate : Bool
deriving DecidableEq, Repr

/-- Modelled from the spec: an `AnalysisResult` (spec §3) — the backend
data model source is missing from the repository.  Aggregates the component
outputs plus the reduced-confidence flags. -/
structure AnalysisResult where
  location : Location
  roof : RoofProfile
  yieldEstimate : YieldEstimate
  economics : EconomicProfile
  co2_reduction : ℚ
  tree_equivalent : ℕ
  flags : ConfidenceFlags
deriving DecidableEq, Repr

/-- Modelled from the spec: the external providers and fixed policy
constants the pipeline consumes (spec §6) — the backend adapter sources are
missing from the repository.  `roofEstimate` returns the profile and
whether the deterministic fallback heuristic was used (spec §4.2);
`climateStale` reports whether the region's reference data is past its
validity lifetime (spec §3). -/
structure Providers where
  geocode : String → GeoOutcome
  roofEstimate : Location → RoofProfile × Bool
  climateStore : String → Option ClimateSeries
  climateStale : String → Bool
  rates : String → RateTable
  panelDensity : ℚ
  maxCapacity : String → ℚ
  co2Factor : ℚ
  treeFactor : ℚ

/-- Modelled from the spec: the Environmental Engine (spec §4.6) — its
backend source is missing from the repository.  Two fixed linear conversion
factors (generation → CO2, CO2 → tree-equivalent); the tree-equivalent
count is a non-negative integer. -/
def environmentalImpact (co2Factor treeFactor annualGeneration : ℚ) : ℚ × ℕ :=
  let co2 := annualGeneration * co2Factor
  (co2, (⌊co2 * treeFactor⌋).toNat)

/-- Modelled from the spec: the analysis pipeline sequenced by the
Orchestrator (spec §2, §4.7) — its backend source is missing from the
repository.  Geocoding → climate resolution → roof estimation → yield
prediction → economics/environmental derivation → result assembly.  An
unresolvable address or a region outside climate coverage is fatal;
an ambiguous address, a roof-estimation fallback and stale climate data
are recoverable degradations recorded in the confidence flags. -/
def runPipeline (p : Providers) (address buildingType : String) :
    Except FatalReason AnalysisResult :=
  let assemble := fun (loc : Location) (ambiguousFlag : Bool) =>
    match resolveClimate p.climateStore loc.region with
    | .error e => .error e
    | .ok cs =>
        let roofPair := p.roofEstimate loc
        let ye := predictYield p.panelDensity (p.maxCapacity buildingType)
          roofPair.1 cs
        let eco := economicAnalysis (p.rates buildingType)
          ye.recommended_capacity ye.annual_generation
        let env := environmentalImpact p.co2Factor p.treeFactor
          ye.annual_generation
        Except.ok
          { location := loc
            roof := roofPair.1
            yieldEstimate := ye
            economics := eco
            co2_reduction := env.1
            tree_equivalent := env.2
            flags := { ambiguousAddress := ambiguousFlag
                       roofFallback := roofPair.2
                       staleClimate := p.climateStale loc.region } }
  match p.geocode address with
  | .noMatch => .error .unresolvableAddress
  | .ambiguous best _ => assemble best true
  | .resolved loc => assemble loc false

/-! ## Analysis Orchestrator state machine (spec §4.7) -/

/-- Request status (spec §3). -/
inductive Status where
  | pending
  | processing
  | completed
  | failed
deriving DecidableEq, Repr

/-- Modelled from the spec: an `AnalysisRequest` record (spec §3) — the
backend data model source is missing from the repository. -/
structure RequestRecord where
  fingerprint : String
  status : Status
  result : Option AnalysisResult
  error : Option FatalReason
deriving DecidableEq, Repr

/-- Events that drive the Orchestrator state machine (spec §4.7). -/
inductive OrchEvent where
  | workBegins
  | pipelineSucceeded (res : AnalysisResult)
  | pipelineFailed (reason : FatalReason)
deriving DecidableEq, Repr

/-- Modelled from the spec: the Orchestrator state machine (spec §4.7) —
its backend source is missing from the repository.  `pending → processing`
when work begins; `processing → completed` with the result attached when
the pipeline succeeds; `processing → failed` with the error attached when a
component raises a fatal error; terminal states admit no transition. -/
def stepRequest (r : RequestRecord) (e : OrchEvent) : Option RequestRecord :=
  match r.status, e with
  | .pending, .workBegins => some { r with status := .processing }
  | .processing, .pipelineSucceeded res =>
      some { r with status := .completed, result := some res, error := none }
  | .processing, .pipelineFailed reason =>
      some { r with status := .failed, result := none, error := some reason }
  | _, _ => none

/-- Modelled from the spec: the fingerprint of a request (spec glossary) —
a stable derived key from the normalized address and the building type. -/
def fingerprint (address buildingType : String) : String :=
  jsTrim address ++ "#" ++ buildingType

/-- Modelled from the spec: one whole request processed by the Orchestrator
(spec §4.7): created `pending`, moved to `processing`, then `completed`
with the pipeline result or `failed` with the fatal reason. -/
def orchestrate (p : Providers) (address buildingType : String) :
    RequestRecord :=
  match runPipeline p address buildingType with
  | .ok res =>
      { fingerprint := fingerprint address buildingType
        status := .completed, result := some res, error := none }
  | .error e =>
      { fingerprint := fingerprint address buildingType
        status := .failed, result := none, error := some e }

/-! ## In-flight registry and deduplication (spec §5) -/

/-- Modelled from the spec: the fingerprint-keyed in-flight registry
(spec §5, §9) — its backend source is missing from the repository.
`entries` maps each in-flight fingerprint to its computation id;
`computationsStarted` counts computations ever started. -/
structure InflightRegistry where
  entries : List (String × ℕ)
  nextId : ℕ
  computationsStarted : ℕ
deriving DecidableEq, Repr

/-- Modelled from the spec: one atomic check-and-insert submission against
the in-flight registry (spec §5: all access is through atomic
check-and-insert semantics, so any interleaving of concurrent submissions
is a sequence of these atomic operations).  A fingerprint already in flight
attaches to the existing computation; otherwise a fresh computation is
registered and started. -/
def submitAnalysis (reg : InflightRegistry) (fp : String) :
    ℕ × InflightRegistry :=
  match reg.entries.find? (fun e => e.1 == fp) with
  | some e => (e.2, reg)
  | none =>
      (reg.nextId,
        { entries := (fp, reg.nextId) :: reg.entries
          nextId := reg.nextId + 1
          computationsStarted := reg.computationsStarted + 1 })

/-! ## Claims about the home page and the documented submission response -/

/-- C1: submitting an empty or whitespace-only address is rejected
synchronously — for every address whose trim is empty, `handleSubmit`
returns without issuing any network request to the analysis endpoint (no
body is sent and no navigation happens). -/
theorem C1_empty_address_rejected (address : String) (fetch : FetchOutcome)
    (h : jsTrim address = "") :
    (handleSubmit address fetch).fetched = false ∧
    (handleSubmit address fetch).sentBody = none ∧
    (handleSubmit address fetch).pushedRoute = none := by
  simp [handleSubmit, h]

/-- Witness for C1 at the whitespace-only address `"   "`. -/
theorem C1_empty_address_rejected_witness :
    jsTrim "   " = "" ∧
    (handleSubmit "   " FetchOutcome.reject).fetched = false ∧
    (handleSubmit "   " FetchOutcome.reject).sentBody = none ∧
    (handleSubmit "   " FetchOutcome.reject).pushedRoute = none :=
  ⟨by decide, C1_empty_address_rejected "   " FetchOutcome.reject (by decide)⟩

/-- C2 counterexample: the repository README documents the response of
`POST /api/v1/analysis` with `status` equal to `"processing"`, not
`"pending"` as the claim states. -/
theorem C2_status_not_pending : submitResponseExample.status ≠ "pending" := by
  decide

/-- C2 (amended): the documented submission response carries a
`request_id`, a `status` field equal to `"processing"`, and an estimated
time in seconds (`estimated_time = 30`). -/
theorem C2_submit_response_fields :
    submitResponseExample.request_id = "550e8400-e29b-41d4-a716-446655440000"
    ∧ submitResponseExample.status = "processing"
    ∧ submitResponseExample.estimated_time = 30 := by
  decide

/-- C9: every analysis submission the home page form sends has
`building_type = "house"` in its request body, whatever address the user
entered (page.tsx lines 28–31 hard-code the building type). -/
theorem C9_building_type_always_house (address : String)
    (fetch : FetchOutcome) (body : AnalysisRequestBody)
    (h : (handleSubmit address fetch).sentBody = some body) :
    body.building_type = "house" ∧ body.address = address := by
  by_cases he : jsTrim address = ""
  · simp [handleSubmit, he] at h
  · cases fetch with
    | reject =>
        simp [handleSubmit, he] at h
        simp [← h]
    | response ok rid =>
        cases ok <;> simp [handleSubmit, he] at h <;> simp [← h]

/-- Witness for C9 at address `"a"` with a rejected fetch. -/
theorem C9_building_type_always_house_witness :
    (handleSubmit "a" FetchOutcome.reject).sentBody
      = some { address := "a", building_type := "house" } ∧
    ({ address := "a", building_type := "house" }
      : AnalysisRequestBody).building_type = "house" :=
  ⟨by decide,
    (C9_building_type_always_house "a" FetchOutcome.reject _ (by decide)).1⟩

/-- C10: `handleSubmit` navigates only on an `ok` response — when the fetch
rejects or the response is not `ok`, `router.push` is not called — and in
every run the `loading` flag ends `false`. -/
theorem C10_nav_only_on_ok (address : String) (fetch : FetchOutcome) :
    ((handleSubmit address fetch).pushedRoute.isSome = true →
      ∃ rid, fetch = FetchOutcome.response true rid) ∧
    (fetch = FetchOutcome.reject →
      (handleSubmit address fetch).pushedRoute = none) ∧
    (∀ rid, fetch = FetchOutcome.response false rid →
      (handleSubmit address fetch).pushedRoute = none) ∧
    (handleSubmit address fetch).loadingFinal = false := by
  by_cases he : jsTrim address = ""
  · simp [handleSubmit, he, HandlerRun.loadingFinal]
  · cases fetch with
    | reject => simp [handleSubmit, he, HandlerRun.loadingFinal]
    | response ok rid =>
        cases ok <;>
          simp [handleSubmit, he, HandlerRun.loadingFinal]

/-- Witness for C10: on an `ok` response the pushed route exists, and the
`loading` flag ends `false`. -/
theorem C10_nav_only_on_ok_witness :
    (∃ rid, FetchOutcome.response true "id0"
      = FetchOutcome.response true rid) ∧
    (handleSubmit "a" (FetchOutcome.response true "id0")).loadingFinal
      = false :=
  ⟨(C10_nav_only_on_ok "a" (FetchOutcome.response true "id0")).1 (by decide),
    (C10_nav_only_on_ok "a" (FetchOutcome.response true "id0")).2.2.2⟩

/-! ## Claims about the Economics Engine and the Yield Predictor -/

/-- C3: the Economics Engine formulas and bounds — installation cost =
capacity × cost-per-kW, subsidy = min(installation × subsidy-rate,
subsidy-cap), net cost = installation − subsidy with net cost ≥ 0, annual
savings = annual generation × tariff, payback = net cost / annual savings
exactly when annual savings > 0, and "not recoverable" (`none`) whenever
annual savings ≤ 0; a reported numeric payback is never negative (and `ℚ`
has no infinite value, so it is never infinite). -/
theorem C3_economics_formulas (rt : RateTable) (capacity annualGeneration : ℚ)
    (hrt : rt.wf) (hcap : 0 ≤ capacity) :
    (economicAnalysis rt capacity annualGeneration).installation_cost
      = capacity * rt.costPerKW ∧
    (economicAnalysis rt capacity annualGeneration).subsidy_amount
      = min ((economicAnalysis rt capacity annualGeneration).installation_cost
          * rt.subsidyRate) rt.subsidyCap ∧
    (economicAnalysis rt capacity annualGeneration).net_cost
      = (economicAnalysis rt capacity annualGeneration).installation_cost
        - (economicAnalysis rt capacity annualGeneration).subsidy_amount ∧
    0 ≤ (economicAnalysis rt capacity annualGeneration).net_cost ∧
    (economicAnalysis rt capacity annualGeneration).annual_savings
      = annualGeneration * rt.tariff ∧
    (0 < (economicAnalysis rt capacity annualGeneration).annual_savings →
      (economicAnalysis rt capacity annualGeneration).payback_period
        = some ((economicAnalysis rt capacity annualGeneration).net_cost
            / (economicAnalysis rt capacity annualGeneration).annual_savings)) ∧
    ((economicAnalysis rt capacity annualGeneration).annual_savings ≤ 0 →
      (economicAnalysis rt capacity annualGeneration).payback_period = none) ∧
    (∀ pb, (economicAnalysis rt capacity annualGeneration).payback_period
        = some pb → 0 ≤ pb) := by
  obtain ⟨hc, hr0, hr1, hcapn, ht⟩ := hrt
  have hinst : 0 ≤ capacity * rt.costPerKW := mul_nonneg hcap hc
  have hsub : min (capacity * rt.costPerKW * rt.subsidyRate) rt.subsidyCap
      ≤ capacity * rt.costPerKW :=
    le_trans (min_le_left _ _) (mul_le_of_le_one_right hinst hr1)
  have hnet : 0 ≤ capacity * rt.costPerKW
      - min (capacity * rt.costPerKW * rt.subsidyRate) rt.subsidyCap :=
    sub_nonneg.mpr hsub
  refine ⟨rfl, rfl, rfl, hnet, rfl, ?_, ?_, ?_⟩
  · intro hpos
    simp only [economicAnalysis] at hpos ⊢
    rw [if_pos hpos]
  · intro hle
    simp only [economicAnalysis] at hle ⊢
    rw [if_neg (not_lt.mpr hle)]
  · intro pb hpb
    simp only [economicAnalysis] at hpb
    by_cases hpos : 0 < annualGeneration * rt.tariff
    · rw [if_pos hpos, Option.some.injEq] at hpb
      rw [← hpb]
      exact div_nonneg hnet (le_of_lt hpos)
    · rw [if_neg hpos] at hpb
      cases hpb

/-- Witness for C3 at the README's Scenario A numbers: capacity 18 kW,
annual generation 3650 kWh, cost 500000/kW, subsidy rate 1/5 capped at
1800000, tariff 150 — net cost 7200000 is non-negative and the payback is
the positive rational 7200000 / 547500. -/
theorem C3_economics_formulas_witness :
    ({ costPerKW := 500000, subsidyRate := 1/5, subsidyCap := 1800000,
       tariff := 150 } : RateTable).wf ∧
    0 ≤ (economicAnalysis
      { costPerKW := 500000, subsidyRate := 1/5, subsidyCap := 1800000,
        tariff := 150 } 18 3650).net_cost ∧
    (economicAnalysis
      { costPerKW := 500000, subsidyRate := 1/5, subsidyCap := 1800000,
        tariff := 150 } 18 3650).net_cost = 7200000 :=
  ⟨by constructor <;> norm_num,
    (C3_economics_formulas _ 18 3650
      (by constructor <;> norm_num) (by norm_num)).2.2.2.1,
    by norm_num [economicAnalysis, min_def]⟩

/-- Pointwise larger irradiance lists have larger sums. -/
lemma sum_le_sum_of_forall2 {l₁ l₂ : List ℚ}
    (h : List.Forall₂ (· ≤ ·) l₁ l₂) : l₁.sum ≤ l₂.sum := by
  induction h with
  | nil => exact le_refl 0
  | cons h _ ih => simpa using add_le_add h ih

/-- The annual generation of a predicted yield factors as capacity ×
orientation factor × slope factor × total irradiance. -/
lemma annual_generation_factored (pd mc ta u of sf : ℚ) (r : String)
    (irr : List ℚ) :
    (predictYield pd mc ⟨ta, u, of, sf⟩ ⟨r, irr⟩).annual_generation
      = recommendedCapacity pd mc u * of * sf * irr.sum := by
  simp only [predictYield]
  induction irr with
  | nil => simp
  | cons a l ih =>
      simp only [List.map_cons, List.sum_cons, monthGeneration, ih]
      ring

/-- C4: the Yield Predictor is monotonic — holding all other inputs fixed,
increasing usable area or irradiance, or moving orientation/slope toward
the optimum (which raises the corresponding derating factor), never
decreases the recommended capacity or the annual generation. -/
theorem C4_yield_monotonic (pd mc ta : ℚ) (r : String)
    (u₁ u₂ of₁ of₂ sf₁ sf₂ : ℚ) (irr₁ irr₂ : List ℚ)
    (hpd : 0 ≤ pd) (hmc : 0 ≤ mc)
    (hu₁ : 0 ≤ u₁) (hu : u₁ ≤ u₂)
    (hof₁ : 0 ≤ of₁) (hof : of₁ ≤ of₂)
    (hsf₁ : 0 ≤ sf₁) (hsf : sf₁ ≤ sf₂)
    (hirr₁ : ∀ v ∈ irr₁, 0 ≤ v)
    (hirr : List.Forall₂ (· ≤ ·) irr₁ irr₂) :
    recommendedCapacity pd mc u₁ ≤ recommendedCapacity pd mc u₂ ∧
    (predictYield pd mc ⟨ta, u₁, of₁, sf₁⟩ ⟨r, irr₁⟩).annual_generation ≤
    (predictYield pd mc ⟨ta, u₂, of₁, sf₁⟩ ⟨r, irr₁⟩).annual_generation ∧
    (predictYield pd mc ⟨ta, u₁, of₁, sf₁⟩ ⟨r, irr₁⟩).annual_generation ≤
    (predictYield pd mc ⟨ta, u₁, of₁, sf₁⟩ ⟨r, irr₂⟩).annual_generation ∧
    (predictYield pd mc ⟨ta, u₁, of₁, sf₁⟩ ⟨r, irr₁⟩).annual_generation ≤
    (predictYield pd mc ⟨ta, u₁, of₂, sf₁⟩ ⟨r, irr₁⟩).annual_generation ∧
    (predictYield pd mc ⟨ta, u₁, of₁, sf₁⟩ ⟨r, irr₁⟩).annual_generation ≤
    (predictYield pd mc ⟨ta, u₁, of₁, sf₂⟩ ⟨r, irr₁⟩).annual_generation := by
  have hcap : recommendedCapacity pd mc u₁ ≤ recommendedCapacity pd mc u₂ :=
    min_le_min (mul_le_mul_of_nonneg_right hu hpd) le_rfl
  have hcap₁ : 0 ≤ recommendedCapacity pd mc u₁ :=
    le_min (mul_nonneg hu₁ hpd) hmc
  have hsum₁ : 0 ≤ irr₁.sum := List.sum_nonneg hirr₁
  have hsum : irr₁.sum ≤ irr₂.sum := sum_le_sum_of_forall2 hirr
  refine ⟨hcap, ?_, ?_, ?_, ?_⟩ <;>
    rw [annual_generation_factored, annual_generation_factored]
  · exact mul_le_mul_of_nonneg_right
      (mul_le_mul_of_nonneg_right
        (mul_le_mul_of_nonneg_right hcap hof₁) hsf₁) hsum₁
  · exact mul_le_mul_of_nonneg_left hsum
      (mul_nonneg (mul_nonneg hcap₁ hof₁) hsf₁)
  · exact mul_le_mul_of_nonneg_right
      (mul_le_mul_of_nonneg_right
        (mul_le_mul_of_nonneg_left hof hcap₁) hsf₁) hsum₁
  · exact mul_le_mul_of_nonneg_right
      (mul_le_mul_of_nonneg_left hsf (mul_nonneg hcap₁ hof₁)) hsum₁

/-- Witness for C4: growing the usable area from 100 m² to 135 m² does not
decrease the recommended capacity at panel density 3/20 kW/m² capped at
100 kW. -/
theorem C4_yield_monotonic_witness :
    recommendedCapacity (3/20) 100 100 ≤ recommendedCapacity (3/20) 100 135 :=
  (C4_yield_monotonic (3/20) 100 150 "gyeonggi" 100 135 (9/10) 1 (9/10) 1
    [3, 4, 5] [4, 5, 6]
    (by norm_num) (by norm_num) (by norm_num) (by norm_num) (by norm_num)
    (by norm_num) (by norm_num) (by norm_num) (by norm_num)
    (by norm_num [List.forall₂_cons])).1

/-- A series accepted by the Climate Resolver satisfies the §3 invariant. -/
lemma resolveClimate_wf {store : String → Option ClimateSeries}
    {region : String} {cs : ClimateSeries}
    (h : resolveClimate store region = .ok cs) : cs.wf := by
  cases hs : store region with
  | none => simp [resolveClimate, hs] at h
  | some cs0 =>
      simp only [resolveClimate, hs] at h
      split_ifs at h with hw
      injection h with h2
      subst h2
      exact hw

/-- C5: for every YieldEstimate produced by the predictor, the annual
generation equals the sum of its 12 monthly values within 0.1 kWh (here
exactly, so the difference is 0), and every ClimateSeries obtained from the
Climate Resolver has exactly 12 entries, each ≥ 0. -/
theorem C5_conservation_and_climate_invariant
    (store : String → Option ClimateSeries) (region : String)
    (cs : ClimateSeries) (h : resolveClimate store region = .ok cs)
    (pd mc : ℚ) (roof : RoofProfile) :
    cs.values.length = 12 ∧ (∀ v ∈ cs.values, 0 ≤ v) ∧
    (predictYield pd mc roof cs).monthly_generation.length = 12 ∧
    |(predictYield pd mc roof cs).annual_generation
        - (predictYield pd mc roof cs).monthly_generation.sum| ≤ 1/10 := by
  obtain ⟨hlen, hpos⟩ := resolveClimate_wf h
  refine ⟨hlen, hpos, ?_, ?_⟩
  · simp [predictYield, hlen]
  · simp only [predictYield, sub_self, abs_zero]
    norm_num

/-- A 12-month climate series used by the witnesses. -/
def demoSeries : ClimateSeries :=
  { region := "gyeonggi", values := [3, 3, 4, 4, 5, 5, 5, 5, 4, 4, 3, 3] }

/-- A climate store used by the witnesses: covers exactly the region
`"gyeonggi"`. -/
def demoStore (region : String) : Option ClimateSeries :=
  if region = "gyeonggi" then some demoSeries else none

lemma demoSeries_wf : demoSeries.wf := by
  refine ⟨rfl, ?_⟩
  intro v hv
  simp only [demoSeries, List.mem_cons, List.not_mem_nil, or_false] at hv
  rcases hv with h | h | h | h | h | h | h | h | h | h | h | h <;>
    rw [h] <;> norm_num

lemma demoStore_ok : resolveClimate demoStore "gyeonggi" = .ok demoSeries := by
  have h1 : demoStore "gyeonggi" = some demoSeries := if_pos rfl
  simp [resolveClimate, h1, demoSeries_wf]

/-- Witness for C5 at the demo climate store and a concrete roof. -/
theorem C5_conservation_witness :
    demoSeries.values.length = 12 ∧
    |(predictYield (3/20) 100 ⟨150, 135, 1, 1⟩ demoSeries).annual_generation
        - (predictYield (3/20) 100 ⟨150, 135, 1, 1⟩
            demoSeries).monthly_generation.sum| ≤ 1/10 :=
  ⟨(C5_conservation_and_climate_invariant demoStore "gyeonggi" demoSeries
      demoStore_ok (3/20) 100 ⟨150, 135, 1, 1⟩).1,
    (C5_conservation_and_climate_invariant demoStore "gyeonggi" demoSeries
      demoStore_ok (3/20) 100 ⟨150, 135, 1, 1⟩).2.2.2⟩

/-! ## Claims about the Orchestrator lifecycle, climate coverage and
deduplication -/

/-- A location used by the witnesses, in the covered region. -/
def demoLocation : Location :=
  { address := "경기도 수원시 영통구 광교로 156", latitude := 37,
    longitude := 127, region := "gyeonggi" }

/-- Providers used by the witnesses: the geocoder reports an ambiguous
match, the roof estimator uses its fallback heuristic, and the climate
store covers exactly the region `"gyeonggi"`. -/
def demoProviders : Providers :=
  { geocode := fun _ => GeoOutcome.ambiguous demoLocation []
    roofEstimate := fun _ => (⟨150, 135, 1, 1⟩, true)
    climateStore := demoStore
    climateStale := fun _ => false
    rates := fun _ => ⟨500000, 1/5, 1800000, 150⟩
    panelDensity := 3/20
    maxCapacity := fun _ => 100
    co2Factor := 1/2
    treeFactor := 10 }

/-- Providers whose climate store covers no region at all. -/
def noClimateProviders : Providers :=
  { demoProviders with
    geocode := fun _ => GeoOutcome.resolved demoLocation
    climateStore := fun _ => none }

/-- C6: the request state machine only moves
pending → processing → {completed, failed}; completed and failed are
terminal with no further mutation; a pipeline success — including one
degraded by an ambiguous address, a roof-estimation fallback or stale
climate data — never transitions to failed: it completes with the
reduced-confidence flags attached to the result. -/
theorem C6_state_machine :
    (∀ (r : RequestRecord) (e : OrchEvent),
      r.status = Status.completed ∨ r.status = Status.failed →
        stepRequest r e = none) ∧
    (∀ (r : RequestRecord) (e : OrchEvent) (r2 : RequestRecord),
      stepRequest r e = some r2 →
        (r.status = Status.pending ∧ e = OrchEvent.workBegins ∧
          r2.status = Status.processing) ∨
        (r.status = Status.processing ∧ r2.status = Status.completed ∧
          ∃ res, e = OrchEvent.pipelineSucceeded res ∧
            r2.result = some res) ∨
        (r.status = Status.processing ∧ r2.status = Status.failed ∧
          ∃ reason, e = OrchEvent.pipelineFailed reason ∧
            r2.error = some reason)) ∧
    (∀ (r : RequestRecord) (res : AnalysisResult) (r2 : RequestRecord),
      stepRequest r (OrchEvent.pipelineSucceeded res) = some r2 →
        r2.status = Status.completed ∧ r2.result = some res) ∧
    (∀ (p : Providers) (address buildingType : String) (best : Location)
      (rest : List Location) (cs : ClimateSeries),
      p.geocode address = GeoOutcome.ambiguous best rest →
      p.climateStore best.region = some cs → cs.wf →
      (runPipeline p address buildingType).map (fun res => res.flags)
        = Except.ok ⟨true, (p.roofEstimate best).2,
            p.climateStale best.region⟩) := by
  refine ⟨?_, ?_, ?_, ?_⟩
  · intro r e h
    rcases h with h | h <;> cases e <;> simp [stepRequest, h]
  · intro r e r2 h2
    cases hs : r.status with
    | pending =>
        cases e with
        | workBegins =>
            simp [stepRequest, hs] at h2
            subst h2
            exact Or.inl ⟨rfl, rfl, rfl⟩
        | pipelineSucceeded res => simp [stepRequest, hs] at h2
        | pipelineFailed reason => simp [stepRequest, hs] at h2
    | processing =>
        cases e with
        | workBegins => simp [stepRequest, hs] at h2
        | pipelineSucceeded res =>
            simp [stepRequest, hs] at h2
            subst h2
            exact Or.inr (Or.inl ⟨rfl, rfl, res, rfl, rfl⟩)
        | pipelineFailed reason =>
            simp [stepRequest, hs] at h2
            subst h2
            exact Or.inr (Or.inr ⟨rfl, rfl, reason, rfl, rfl⟩)
    | completed => cases e <;> simp [stepRequest, hs] at h2
    | failed => cases e <;> simp [stepRequest, hs] at h2
  · intro r res r2 h2
    cases hs : r.status with
    | pending => simp [stepRequest, hs] at h2
    | processing =>
        simp [stepRequest, hs] at h2
        subst h2
        exact ⟨rfl, rfl⟩
    | completed => simp [stepRequest, hs] at h2
    | failed => simp [stepRequest, hs] at h2
  · intro p address buildingType best rest cs hgeo hstore hwf
    have hres : resolveClimate p.climateStore best.region = .ok cs := by
      simp [resolveClimate, hstore, hwf]
    simp only [runPipeline, hgeo, hres, Except.map]

/-- Witness for C6: a completed record admits no further transition, and
the demo providers — ambiguous geocoding, fallback roof estimate — still
complete with the degradation flags attached. -/
theorem C6_state_machine_witness :
    stepRequest (⟨"f", Status.completed, none, none⟩ : RequestRecord)
      OrchEvent.workBegins = none ∧
    (runPipeline demoProviders "addr" "house").map (fun res => res.flags)
      = Except.ok ⟨true, (demoProviders.roofEstimate demoLocation).2,
          demoProviders.climateStale demoLocation.region⟩ :=
  ⟨C6_state_machine.1 ⟨"f", Status.completed, none, none⟩
      OrchEvent.workBegins (Or.inl rfl),
    C6_state_machine.2.2.2 demoProviders "addr" "house" demoLocation []
      demoSeries rfl rfl demoSeries_wf⟩

/-- C7: a request for an address whose region is outside the supported
climate coverage terminates `failed` with reason `NoClimateData` — it never
completes, so no zero or fabricated result is attached. -/
theorem C7_no_climate_data (p : Providers) (address buildingType : String)
    (r : String) (hr : (p.geocode address).region = some r)
    (hmiss : p.climateStore r = none) :
    (orchestrate p address buildingType).status = Status.failed ∧
    (orchestrate p address buildingType).error
      = some FatalReason.noClimateData ∧
    (orchestrate p address buildingType).result = none := by
  have hrun : runPipeline p address buildingType
      = Except.error FatalReason.noClimateData := by
    cases hg : p.geocode address with
    | noMatch => simp [GeoOutcome.region, hg] at hr
    | ambiguous best rest =>
        have hbr : best.region = r := by
          simpa [GeoOutcome.region, hg] using hr
        simp [runPipeline, hg, resolveClimate, hbr, hmiss]
    | resolved loc =>
        have hbr : loc.region = r := by
          simpa [GeoOutcome.region, hg] using hr
        simp [runPipeline, hg, resolveClimate, hbr, hmiss]
  simp [orchestrate, hrun]

/-- Witness for C7 at providers whose climate store covers nothing. -/
theorem C7_no_climate_data_witness :
    (noClimateProviders.geocode "addr").region = some "gyeonggi" ∧
    noClimateProviders.climateStore "gyeonggi" = none ∧
    (orchestrate noClimateProviders "addr" "house").status = Status.failed ∧
    (orchestrate noClimateProviders "addr" "house").error
      = some FatalReason.noClimateData :=
  ⟨rfl, rfl,
    (C7_no_climate_data noClimateProviders "addr" "house" "gyeonggi"
      rfl rfl).1,
    (C7_no_climate_data noClimateProviders "addr" "house" "gyeonggi"
      rfl rfl).2.1⟩

/-- C8: at most one computation per fingerprint — starting from a registry
with no in-flight entry for the fingerprint, a first submission starts
exactly one computation, and a second submission of the same fingerprint
(in any interleaving; every registry access is one atomic check-and-insert)
attaches to the same computation id without changing the registry, so both
submissions resolve to the identical result payload and the registry keeps
exactly one entry for the fingerprint. -/
theorem C8_dedup_per_fingerprint (reg : InflightRegistry) (fp : String)
    (h : reg.entries.find? (fun e => e.1 == fp) = none) :
    (submitAnalysis (submitAnalysis reg fp).2 fp).1
      = (submitAnalysis reg fp).1 ∧
    (submitAnalysis (submitAnalysis reg fp).2 fp).2
      = (submitAnalysis reg fp).2 ∧
    (submitAnalysis reg fp).2.computationsStarted
      = reg.computationsStarted + 1 ∧
    (submitAnalysis (submitAnalysis reg fp).2 fp).2.computationsStarted
      = reg.computationsStarted + 1 ∧
    ((submitAnalysis (submitAnalysis reg fp).2 fp).2.entries.countP
      (fun e => e.1 == fp)) = 1 := by
  have h0 : reg.entries.countP (fun e => e.1 == fp) = 0 := by
    rw [List.countP_eq_zero]
    intro a ha
    exact List.find?_eq_none.mp h a ha
  have h1 : submitAnalysis reg fp
      = (reg.nextId, ⟨(fp, reg.nextId) :: reg.entries, reg.nextId + 1,
          reg.computationsStarted + 1⟩) := by
    simp [submitAnalysis, h]
  have hfind : ((fp, reg.nextId) :: reg.entries).find? (fun e => e.1 == fp)
      = some (fp, reg.nextId) := List.find?_cons_of_pos _ (by simp)
  have h2 : submitAnalysis (⟨(fp, reg.nextId) :: reg.entries,
        reg.nextId + 1, reg.computationsStarted + 1⟩ : InflightRegistry) fp
      = (reg.nextId, ⟨(fp, reg.nextId) :: reg.entries, reg.nextId + 1,
          reg.computationsStarted + 1⟩) := by
    simp [submitAnalysis, hfind]
  simp only [h1, h2, true_and]
  rw [List.countP_cons_of_pos _ _ (by simp), h0]

/-- Witness for C8 at an empty registry and the fingerprint of the demo
address with building type house. -/
theorem C8_dedup_per_fingerprint_witness :
    (submitAnalysis
        (submitAnalysis (⟨[], 0, 0⟩ : InflightRegistry)
          (fingerprint "addr " "house")).2
        (fingerprint "addr " "house")).1
      = (submitAnalysis (⟨[], 0, 0⟩ : InflightRegistry)
          (fingerprint "addr " "house")).1 ∧
    (submitAnalysis (⟨[], 0, 0⟩ : InflightRegistry)
        (fingerprint "addr " "house")).2.computationsStarted = 0 + 1 :=
  ⟨(C8_dedup_per_fingerprint ⟨[], 0, 0⟩ (fingerprint "addr " "house")
      rfl).1,
    (C8_dedup_per_fingerprint ⟨[], 0, 0⟩ (fingerprint "addr " "house")
      rfl).2.2.1⟩

end SolarScan
